import Mathlib

/-!
Verification development for the trivia ETL-and-quiz application (src/main.py).

The Python program is embedded shallowly:
* a persisted row of the `trivia` table becomes `TriviaRecord`;
* a raw JSON item from the remote API becomes `RawItem`, with `none`
  standing for an absent key;
* the SQLite table becomes a `List TriviaRecord`; the query
  `SELECT DISTINCT * FROM trivia ORDER BY RANDOM() LIMIT n` becomes
  deduplication, an arbitrary reordering function `perm` (required to be a
  permutation in the theorems), and `List.take`;
* the Streamlit session state (`st.session_state`) becomes `SessionState`,
  and the closures `start_quiz` / `submit_answer` of `main` become pure
  transition functions on it; the per-question `random.shuffle` becomes an
  arbitrary function `sh` indexed by the question position, required to be a
  permutation in the theorems;
* the states the running app can reach through its UI events (slider,
  Start Quiz button, Submit button) form the inductive predicate `Reachable`;
* the connection lifecycle of each database routine is recorded as the
  list of connect/close events performed on each control path.
-/

namespace TriviaApp

/-- A row of the `trivia` table (schema created in `load_data_to_db`,
lines 70-72 of main.py): question, correct_answer and the distractors
serialized as one delimited string, plus difficulty, category and type,
which the transform stores as `item.get(...)` and may therefore be NULL. -/
structure TriviaRecord where
  question : String
  correct_answer : String
  incorrect_answers : String
  difficulty : Option String
  category : Option String
  type : Option String
  deriving DecidableEq, Repr

/-- A raw item of the `results` array returned by the trivia API, as consumed
by `transform_trivia_data` (lines 41-50). A field is `none` when the JSON
object lacks that key, so that `key in item` is modelled by `isSome`. -/
structure RawItem where
  question : Option String
  correct_answer : Option String
  incorrect_answers : Option (List String)
  difficulty : Option String
  category : Option String
  type : Option String
  deriving DecidableEq, Repr

/-- Lines 42-50 of main.py: an item is kept only when the keys `question`,
`correct_answer` and `incorrect_answers` are all present; the distractor list
is joined with the delimiter ", " exactly as `', '.join(...)` does. -/
def transformItem (item : RawItem) : Option TriviaRecord :=
  match item.question, item.correct_answer, item.incorrect_answers with
  | some q, some ca, some ia =>
      some { question := q, correct_answer := ca,
             incorrect_answers := String.intercalate ", " ia,
             difficulty := item.difficulty, category := item.category,
             type := item.type }
  | _, _, _ => none

/-- `transform_trivia_data` (lines 29-54): Python truthiness makes both the
`None` input and the empty batch return `None`; otherwise every item passing
the required-field guard is transformed and the rest are skipped. -/
def transform_trivia_data (raw_data : Option (List RawItem)) :
    Option (List TriviaRecord) :=
  match raw_data with
  | none => none
  | some [] => none
  | some items => some (items.filterMap transformItem)

/-- `load_data_to_db` (lines 74-79): an append-only bulk insert of the
transformed records into the table, one INSERT per record, no deduplication. -/
def load_data_to_db (transformed_data table : List TriviaRecord) :
    List TriviaRecord :=
  table ++ transformed_data

/-- `fetch_random_questions` (line 116): the query
`SELECT DISTINCT * FROM trivia ORDER BY RANDOM() LIMIT ?` first collapses
duplicate rows (DISTINCT over all columns), then orders the distinct rows
randomly (modelled by the reordering function `perm`), then keeps at most
`num_questions` of them (LIMIT). -/
def fetch_random_questions (perm : List TriviaRecord → List TriviaRecord)
    (num_questions : Nat) (table : List TriviaRecord) : List TriviaRecord :=
  (perm table.dedup).take num_questions

/-- The Streamlit session state of `main` (lines 128-141): the drawn
questions, the index of the current question, the score, the requested
number of questions (slider value), the submitted answers keyed by question
index (newest first), the shuffled options of question `i` at position `i`,
and the started flag. -/
structure SessionState where
  questions : List TriviaRecord
  current_question : Nat
  score : Nat
  num_questions : Nat
  answers : List (Nat × String)
  options : List (List String)
  quiz_started : Bool
  deriving DecidableEq, Repr

/-- The initial session state installed by lines 128-141 of main.py:
no questions, index 0, score 0, default slider value 5, empty answer and
option maps, quiz not started. -/
def initialState : SessionState :=
  { questions := [], current_question := 0, score := 0, num_questions := 5,
    answers := [], options := [], quiz_started := false }

/-- Line 151 of main.py: the option pool of one question is
`question[2].split(", ") + [question[1]]`, the stored distractor string split
back on the join delimiter followed by the correct answer. -/
def mk_options (q : TriviaRecord) : List String :=
  q.incorrect_answers.splitOn ", " ++ [q.correct_answer]

/-- Lines 150-153 of main.py: for each drawn question, shuffle its option
pool and store it under the question index. The shuffle of the options of
question `i` is `sh i`. -/
def build_options (sh : Nat → List String → List String) :
    Nat → List TriviaRecord → List (List String)
  | _, [] => []
  | i, q :: qs => sh i (mk_options q) :: build_options sh (i + 1) qs

/-- The `start_quiz` closure (lines 143-153): store the sample fetched for
the current slider value, reset index, score, answers and options, mark the
quiz started, and precompute the shuffled options of every drawn question.
The fetched sample is passed in explicitly (line 144 obtains it from
`fetch_random_questions`). -/
def start_quiz (sh : Nat → List String → List String)
    (sample : List TriviaRecord) (s : SessionState) : SessionState :=
  { questions := sample, current_question := 0, score := 0,
    num_questions := s.num_questions, answers := [],
    options := build_options sh 0 sample, quiz_started := true }

/-- The `submit_answer` closure (lines 155-163): with no selection the state
is untouched; with a selection, the score is incremented exactly when the
selection equals the correct answer of the current question, the selection is
recorded under the current index, and the index advances by one. The
out-of-range lookup (an IndexError in Python) cannot occur in the app because
the Submit button is only rendered while `current_question < len(questions)`;
the embedding returns the state unchanged there. -/
def submit_answer (answer : Option String) (s : SessionState) : SessionState :=
  match answer with
  | none => s
  | some a =>
    match s.questions[s.current_question]? with
    | none => s
    | some q =>
      { s with
        score := if a = q.correct_answer then s.score + 1 else s.score,
        answers := (s.current_question, a) :: s.answers,
        current_question := s.current_question + 1 }

/-- Line 195 of main.py: the finished display is shown once the quiz has
started and `current_question >= len(questions)`. -/
def isFinished (s : SessionState) : Bool :=
  s.quiz_started && decide (s.questions.length ≤ s.current_question)

/-- Line 196 of main.py: the finished screen reports
`score/num_questions` — the score together with the requested question
count held in `st.session_state.num_questions`. -/
def summary (s : SessionState) : Nat × Nat :=
  (s.score, s.num_questions)

/-- Line 183 of main.py: while a question is on screen the rendered options
are `st.session_state.options[st.session_state.current_question]`. -/
def currentOptions (s : SessionState) : Option (List String) :=
  if s.current_question < s.questions.length then
    s.options[s.current_question]?
  else none

/-- One re-render of the question screen (lines 178-189): it reads the
current options and performs no assignment to the session state, so it
returns the state unchanged alongside what it displayed. -/
def render (s : SessionState) : Option (List String) × SessionState :=
  (currentOptions s, s)

/-- A sequence of Submit clicks, each carrying a selection. -/
def applyAnswers (l : List String) (s : SessionState) : SessionState :=
  l.foldl (fun st a => submit_answer (some a) st) s

/-- The session states the app can reach: the initial Streamlit state,
moving the slider (bounds 1-10, line 166-172), pressing Start Quiz
(line 174-175, with whatever sample the database returns), and pressing
Submit while a question is on screen (lines 178-193). -/
inductive Reachable (sh : Nat → List String → List String) : SessionState → Prop
  | init : Reachable sh initialState
  | set_num {s : SessionState} (n : Nat) : 1 ≤ n → n ≤ 10 → Reachable sh s →
      Reachable sh { s with num_questions := n }
  | start {s : SessionState} (sample : List TriviaRecord) : Reachable sh s →
      Reachable sh (start_quiz sh sample s)
  | submit {s : SessionState} (a : Option String) :
      s.current_question < s.questions.length → Reachable sh s →
      Reachable sh (submit_answer a s)

/-- A connect or close performed on a database connection. -/
inductive ConnEvent
  | openConn
  | closeConn
  deriving DecidableEq, Repr

/-- Every acquired connection is released: as many closes as opens. -/
def releasesConnections (t : List ConnEvent) : Bool :=
  t.count ConnEvent.closeConn == t.count ConnEvent.openConn

/-- Connection events of `fetch_random_questions` (lines 112-122): connect at
line 114; on the success path `conn.close()` at line 118; when the query
raises `sqlite3.Error`, the `except` clause (lines 120-122) returns `[]`
without any close — the function has no `finally` block. -/
def fetch_random_questions_conns (query_fails : Bool) : List ConnEvent :=
  if query_fails then [ConnEvent.openConn]
  else [ConnEvent.openConn, ConnEvent.closeConn]

/-- Connection events of `load_data_to_db` (lines 65-85): connect at line 66;
whether or not the body raises `sqlite3.Error`, the `finally` block
(lines 83-85) closes the connection. -/
def load_data_to_db_conns (query_fails : Bool) : List ConnEvent :=
  if query_fails then [ConnEvent.openConn, ConnEvent.closeConn]
  else [ConnEvent.openConn, ConnEvent.closeConn]

/-- Connection events of `visualize_data` (lines 87-105): connect at line 89;
whether or not the body raises, the `finally` block (lines 103-105) closes
the connection. -/
def visualize_data_conns (query_fails : Bool) : List ConnEvent :=
  if query_fails then [ConnEvent.openConn, ConnEvent.closeConn]
  else [ConnEvent.openConn, ConnEvent.closeConn]

/-- The identity shuffle, a concrete permutation used to instantiate `sh`. -/
def idShuffle : Nat → List String → List String := fun _ l => l

/-- A concrete stored record used in concrete evaluations. -/
def qA : TriviaRecord :=
  { question := "Q", correct_answer := "A", incorrect_answers := "B, C, D",
    difficulty := none, category := none, type := none }

/-- A raw item carrying all required fields. -/
def rawGood : RawItem :=
  { question := some "Q", correct_answer := some "A",
    incorrect_answers := some ["B", "C", "D"], difficulty := some "easy",
    category := some "General", type := some "multiple" }

/-- A raw item missing the required `question` field. -/
def rawBad : RawItem :=
  { question := none, correct_answer := some "A",
    incorrect_answers := some ["B"], difficulty := none, category := none,
    type := none }

/-- The record `transformItem` produces from `rawGood`. -/
def recA : TriviaRecord :=
  { question := "Q", correct_answer := "A", incorrect_answers := "B, C, D",
    difficulty := some "easy", category := some "General",
    type := some "multiple" }

/-- A session freshly started over the single stored record `qA`. -/
def demoState : SessionState := start_quiz idShuffle [qA] initialState

/-- An index below the length of a list hits some element. -/
theorem exists_getElem?_of_lt (l : List TriviaRecord) (i : Nat)
    (h : i < l.length) : ∃ q, l[i]? = some q :=
  ⟨l[i], List.getElem?_eq_getElem h⟩

/-- Explicit form of `submit_answer` on a selection when the current index
hits a question. -/
theorem submit_answer_some_eq (s : SessionState) (a : String)
    (q : TriviaRecord) (hq : s.questions[s.current_question]? = some q) :
    submit_answer (some a) s =
      { s with
        score := if a = q.correct_answer then s.score + 1 else s.score,
        answers := (s.current_question, a) :: s.answers,
        current_question := s.current_question + 1 } := by
  simp [submit_answer, hq]

/-- `submit_answer` never touches the precomputed options. -/
theorem submit_answer_options_eq (a : Option String) (s : SessionState) :
    (submit_answer a s).options = s.options := by
  cases a with
  | none => rfl
  | some a =>
    unfold submit_answer
    cases s.questions[s.current_question]? <;> rfl

/-- One Submit click preserves the key bound on recorded answers. -/
theorem submit_answer_keys_step (s : SessionState) (a : Option String)
    (hlt : s.current_question < s.questions.length)
    (ih : ∀ p ∈ s.answers, p.1 < s.current_question) :
    ∀ p ∈ (submit_answer a s).answers,
      p.1 < (submit_answer a s).current_question := by
  cases a with
  | none => exact ih
  | some a =>
    obtain ⟨q, hq⟩ := exists_getElem?_of_lt _ _ hlt
    rw [submit_answer_some_eq s a q hq]
    intro p hp
    simp only [List.mem_cons] at hp
    rcases hp with hp | hp
    · subst hp; exact Nat.lt_succ_self _
    · exact Nat.lt_succ_of_lt (ih p hp)

/-- One Submit click preserves the bound of the score by the current
index. -/
theorem submit_answer_score_step (s : SessionState) (a : Option String)
    (hlt : s.current_question < s.questions.length)
    (ih : s.score ≤ s.current_question) :
    (submit_answer a s).score ≤ (submit_answer a s).current_question := by
  cases a with
  | none => exact ih
  | some a =>
    obtain ⟨q, hq⟩ := exists_getElem?_of_lt _ _ hlt
    rw [submit_answer_some_eq s a q hq]
    show (if a = q.correct_answer then s.score + 1 else s.score) ≤
      s.current_question + 1
    split <;> omega

/-- The option list built for position `i` is the shuffle of the option pool
of the question at position `i`. -/
theorem build_options_getElem? (sh : Nat → List String → List String)
    (qs : List TriviaRecord) : ∀ (k i : Nat) (q : TriviaRecord),
    qs[i]? = some q →
    (build_options sh k qs)[i]? = some (sh (k + i) (mk_options q)) := by
  induction qs with
  | nil => intro k i q h; simp at h
  | cons q0 qs ih =>
    intro k i q h
    cases i with
    | zero =>
      simp at h
      subst h
      simp [build_options]
    | succ i =>
      simp only [List.getElem?_cons_succ] at h
      have := ih (k + 1) i q h
      simpa [build_options, Nat.add_assoc, Nat.add_comm 1 i] using this

/-- Effect of a run of Submit clicks while enough questions remain: the index
advances by one per click, the score grows by at most one per click, and the
drawn questions, requested count and started flag are untouched. -/
theorem applyAnswers_spec (l : List String) : ∀ s : SessionState,
    s.current_question + l.length ≤ s.questions.length →
    (applyAnswers l s).current_question = s.current_question + l.length ∧
    (applyAnswers l s).score ≤ s.score + l.length ∧
    (applyAnswers l s).questions = s.questions ∧
    (applyAnswers l s).num_questions = s.num_questions ∧
    (applyAnswers l s).quiz_started = s.quiz_started := by
  induction l with
  | nil => intro s h; simp [applyAnswers]
  | cons a l ih =>
    intro s h
    simp only [List.length_cons] at h
    have hlt : s.current_question < s.questions.length := by omega
    obtain ⟨q, hq⟩ := exists_getElem?_of_lt _ _ hlt
    have hstep : applyAnswers (a :: l) s =
        applyAnswers l (submit_answer (some a) s) := rfl
    rw [hstep, submit_answer_some_eq s a q hq]
    obtain ⟨h1, h2, h3, h4, h5⟩ :=
      ih { s with
             score := if a = q.correct_answer then s.score + 1 else s.score,
             answers := (s.current_question, a) :: s.answers,
             current_question := s.current_question + 1 }
        (by show s.current_question + 1 + l.length ≤ s.questions.length
            omega)
    refine ⟨?_, ?_, ?_, ?_, ?_⟩
    · rw [h1]
      show s.current_question + 1 + l.length =
        s.current_question + (l.length + 1)
      omega
    · refine le_trans h2 ?_
      show (if a = q.correct_answer then s.score + 1 else s.score) + l.length ≤
        s.score + (l.length + 1)
      split <;> omega
    · exact h3
    · exact h4
    · exact h5

/-- In every reachable session state, every recorded answer key is below the
current index. -/
theorem answers_keys_lt_aux (sh : Nat → List String → List String)
    (s : SessionState) (h : Reachable sh s) :
    ∀ p ∈ s.answers, p.1 < s.current_question := by
  induction h with
  | init => intro p hp; simp [initialState] at hp
  | set_num n h1 h2 hr ih => exact ih
  | start sample hr ih => intro p hp; simp [start_quiz] at hp
  | submit a hlt hr ih => exact submit_answer_keys_step _ a hlt ih

/-- In every reachable session state, the score is at most the current
index. -/
theorem score_le_current_aux (sh : Nat → List String → List String)
    (s : SessionState) (h : Reachable sh s) :
    s.score ≤ s.current_question := by
  induction h with
  | init => exact Nat.le_refl 0
  | set_num n h1 h2 hr ih => exact ih
  | start sample hr ih => exact Nat.le_refl 0
  | submit a hlt hr ih => exact submit_answer_score_step _ a hlt ih

/-- A Submit click never moves the current index backwards. -/
theorem submit_answer_current_le (a : Option String) (s : SessionState) :
    s.current_question ≤ (submit_answer a s).current_question := by
  cases a with
  | none => exact Nat.le_refl _
  | some a =>
    rcases hq : s.questions[s.current_question]? with _ | q
    · have hnone : submit_answer (some a) s = s := by
        simp [submit_answer, hq]
      rw [hnone]
    · rw [submit_answer_some_eq s a q hq]
      exact Nat.le_succ _

/-- C2: in an in-progress session, submitting the exact correct answer of
the current question increments the score and the index by one and records
the selection at the old index; submitting any other non-null string
increments only the index and records the selection. -/
theorem submit_answer_scoring (s : SessionState) (q : TriviaRecord)
    (a : String) (hq : s.questions[s.current_question]? = some q) :
    (submit_answer (some a) s).current_question = s.current_question + 1 ∧
    (submit_answer (some a) s).answers = (s.current_question, a) :: s.answers ∧
    (a = q.correct_answer →
      (submit_answer (some a) s).score = s.score + 1) ∧
    (a ≠ q.correct_answer →
      (submit_answer (some a) s).score = s.score) := by
  rw [submit_answer_some_eq s a q hq]
  refine ⟨rfl, rfl, ?_, ?_⟩
  · intro h
    show (if a = q.correct_answer then s.score + 1 else s.score) = s.score + 1
    simp [h]
  · intro h
    show (if a = q.correct_answer then s.score + 1 else s.score) = s.score
    simp [h]

/-- Witness for C2 at a concrete in-progress session. -/
theorem submit_answer_scoring_witness :
    (submit_answer (some "A") demoState).current_question =
      demoState.current_question + 1 ∧
    (submit_answer (some "A") demoState).answers =
      (demoState.current_question, "A") :: demoState.answers ∧
    ("A" = qA.correct_answer →
      (submit_answer (some "A") demoState).score = demoState.score + 1) ∧
    ("A" ≠ qA.correct_answer →
      (submit_answer (some "A") demoState).score = demoState.score) :=
  submit_answer_scoring demoState qA "A" rfl

/-- C5: submitting with no selection leaves the session state unchanged, in
particular the current index, the score and the recorded answers. -/
theorem submit_answer_none_noop (s : SessionState) :
    submit_answer none s = s := rfl

/-- C7: after a start, a re-render leaves the state unchanged, so repeated
reads of the current options without an intervening Submit all display the
identical sequence. -/
theorem currentOptions_stable (sh : Nat → List String → List String)
    (sample : List TriviaRecord) (s0 : SessionState) :
    (render (start_quiz sh sample s0)).2 = start_quiz sh sample s0 ∧
    (render ((render (start_quiz sh sample s0)).2)).1 =
      (render (start_quiz sh sample s0)).1 :=
  ⟨rfl, rfl⟩

/-- C9: `load_data_to_db` and `visualize_data` close their connection on
both the normal and the error path, but `fetch_random_questions` leaks its
connection when the query raises: its `except` path returns without a
close and there is no `finally`. -/
theorem storage_connection_release :
    (∀ b : Bool, releasesConnections (load_data_to_db_conns b) = true) ∧
    (∀ b : Bool, releasesConnections (visualize_data_conns b) = true) ∧
    releasesConnections (fetch_random_questions_conns false) = true ∧
    releasesConnections (fetch_random_questions_conns true) = false := by
  decide

/-- Counterexample to C3 as stated: two identical rows are inserted, the
table holds 2 rows, yet sampling 2 returns a single record because the
query deduplicates with DISTINCT. -/
theorem sampleRandom_duplicates_counterexample :
    (load_data_to_db [qA, qA] []).length = 2 ∧
    (fetch_random_questions id 2 (load_data_to_db [qA, qA] [])).length = 1 := by
  decide

/-- C3 (amended): after a bulk insert, sampling `n` returns exactly
`min n d` records where `d` counts the distinct rows of the table, and every
returned record is present in the table. -/
theorem sampleRandom_spec (perm : List TriviaRecord → List TriviaRecord)
    (hperm : ∀ l, (perm l).Perm l) (recs table : List TriviaRecord)
    (n : Nat) :
    (fetch_random_questions perm n (load_data_to_db recs table)).length =
      min n (load_data_to_db recs table).dedup.length ∧
    ∀ r ∈ fetch_random_questions perm n (load_data_to_db recs table),
      r ∈ load_data_to_db recs table := by
  constructor
  · show ((perm (load_data_to_db recs table).dedup).take n).length = _
    rw [List.length_take, (hperm _).length_eq]
  · intro r hr
    have h1 : r ∈ perm (load_data_to_db recs table).dedup :=
      List.mem_of_mem_take hr
    exact List.mem_dedup.mp ((hperm _).mem_iff.mp h1)

/-- Witness for C3 (amended) with the identity reordering on a one-row
table. -/
theorem sampleRandom_spec_witness :
    (fetch_random_questions id 1 (load_data_to_db [qA] [])).length =
      min 1 (load_data_to_db [qA] []).dedup.length ∧
    ∀ r ∈ fetch_random_questions id 1 (load_data_to_db [qA] []),
      r ∈ load_data_to_db [qA] [] :=
  sampleRandom_spec id (fun l => List.Perm.refl l) [qA] [] 1

/-- Counterexample to C1 as stated: with an empty sample the freshly started
session is immediately finished, but the finished screen reports the score
over the requested count (here the default 5), not over the 0 questions
actually drawn, so the summary is (0, 5) and not (0, 0). -/
theorem summary_empty_counterexample :
    isFinished (start_quiz idShuffle [] initialState) = true ∧
    summary (start_quiz idShuffle [] initialState) = (0, 5) ∧
    summary (start_quiz idShuffle [] initialState) ≠ (0, 0) := by
  refine ⟨rfl, rfl, ?_⟩
  decide

/-- C1 (amended): after exactly as many valid Submit clicks as there are
drawn questions, the session is finished, the score is at most the number of
drawn questions, and the summary pairs the score with the requested count
`num_questions` carried over from before the start; an empty sample makes
the session immediately finished with summary `(0, num_questions)`. -/
theorem quiz_completion (sh : Nat → List String → List String)
    (sample : List TriviaRecord) (s0 : SessionState) (ans : List String)
    (h : ans.length = sample.length) :
    isFinished (applyAnswers ans (start_quiz sh sample s0)) = true ∧
    (applyAnswers ans (start_quiz sh sample s0)).score ≤ sample.length ∧
    summary (applyAnswers ans (start_quiz sh sample s0)) =
      ((applyAnswers ans (start_quiz sh sample s0)).score,
        s0.num_questions) ∧
    isFinished (start_quiz sh [] s0) = true ∧
    summary (start_quiz sh [] s0) = (0, s0.num_questions) := by
  obtain ⟨h1, h2, h3, h4, h5⟩ :=
    applyAnswers_spec ans (start_quiz sh sample s0)
      (by show 0 + ans.length ≤ sample.length
          omega)
  have e1 : (start_quiz sh sample s0).current_question = 0 := rfl
  have e2 : (start_quiz sh sample s0).questions = sample := rfl
  have e3 : (start_quiz sh sample s0).quiz_started = true := rfl
  have e4 : (start_quiz sh sample s0).num_questions = s0.num_questions := rfl
  have e5 : (start_quiz sh sample s0).score = 0 := rfl
  rw [e1] at h1
  rw [e2] at h3
  rw [e3] at h5
  rw [e4] at h4
  rw [e5] at h2
  refine ⟨?_, ?_, ?_, rfl, rfl⟩
  · rw [isFinished, h5, h3, h1]
    simp [h]
  · omega
  · show ((applyAnswers ans (start_quiz sh sample s0)).score,
      (applyAnswers ans (start_quiz sh sample s0)).num_questions) = _
    rw [h4]

/-- Witness for C1 (amended) on a one-question session answered once. -/
theorem quiz_completion_witness :
    isFinished (applyAnswers ["A"]
      (start_quiz idShuffle [qA] initialState)) = true ∧
    (applyAnswers ["A"] (start_quiz idShuffle [qA] initialState)).score ≤
      [qA].length ∧
    summary (applyAnswers ["A"] (start_quiz idShuffle [qA] initialState)) =
      ((applyAnswers ["A"] (start_quiz idShuffle [qA] initialState)).score,
        initialState.num_questions) ∧
    isFinished (start_quiz idShuffle [] initialState) = true ∧
    summary (start_quiz idShuffle [] initialState) =
      (0, initialState.num_questions) :=
  quiz_completion idShuffle [qA] initialState ["A"] rfl

/-- C4: in a started session, the stored options of question `i` are a
permutation of exactly the option pool of that question — its stored
distractor string split on the delimiter together with its correct
answer — and submitting an answer never changes the stored options. -/
theorem options_permutation (sh : Nat → List String → List String)
    (hsh : ∀ i l, (sh i l).Perm l) (sample : List TriviaRecord)
    (s0 : SessionState) (i : Nat) (q : TriviaRecord)
    (hq : sample[i]? = some q) :
    (∃ opts, (start_quiz sh sample s0).options[i]? = some opts ∧
      opts.Perm (q.incorrect_answers.splitOn ", " ++ [q.correct_answer])) ∧
    ∀ a, (submit_answer a (start_quiz sh sample s0)).options =
      (start_quiz sh sample s0).options := by
  constructor
  · refine ⟨sh i (mk_options q), ?_, hsh i (mk_options q)⟩
    have hb := build_options_getElem? sh sample 0 i q hq
    rw [Nat.zero_add] at hb
    show (build_options sh 0 sample)[i]? = some (sh i (mk_options q))
    exact hb
  · intro a
    exact submit_answer_options_eq a _

/-- Witness for C4 on the concrete one-question session. -/
theorem options_permutation_witness :
    (∃ opts, (start_quiz idShuffle [qA] initialState).options[0]? =
        some opts ∧
      opts.Perm (qA.incorrect_answers.splitOn ", " ++ [qA.correct_answer])) ∧
    ∀ a, (submit_answer a (start_quiz idShuffle [qA] initialState)).options =
      (start_quiz idShuffle [qA] initialState).options :=
  options_permutation idShuffle (fun _ l => List.Perm.refl l) [qA]
    initialState 0 qA rfl

/-- C6: whenever the transform returns a batch, the batch is no longer than
the input, every produced record joins the distractor list of its source
item with the delimiter ", ", and every input item carrying all required
fields contributes its record — items missing a required field are skipped
without making the batch fail. -/
theorem transform_trivia_data_spec (items : List RawItem)
    (out : List TriviaRecord)
    (h : transform_trivia_data (some items) = some out) :
    out.length ≤ items.length ∧
    (∀ rec ∈ out, ∃ item ∈ items, ∃ ia, item.incorrect_answers = some ia ∧
      rec.incorrect_answers = String.intercalate ", " ia) ∧
    (∀ item ∈ items, ∀ rec, transformItem item = some rec → rec ∈ out) := by
  have hout : out = items.filterMap transformItem := by
    cases items with
    | nil => simp [transform_trivia_data] at h
    | cons x xs =>
      simp only [transform_trivia_data, Option.some.injEq] at h
      exact h.symm
  subst hout
  refine ⟨List.length_filterMap_le _ _, ?_, ?_⟩
  · intro rec hrec
    obtain ⟨item, hmem, hti⟩ := List.mem_filterMap.mp hrec
    refine ⟨item, hmem, ?_⟩
    rcases h1 : item.question with _ | qv <;>
      rcases h2 : item.correct_answer with _ | cav <;>
      rcases h3 : item.incorrect_answers with _ | iav <;>
      simp [transformItem, h1, h2, h3] at hti
    exact ⟨iav, rfl, by rw [← hti]⟩
  · intro item hmem rec hrec
    exact List.mem_filterMap.mpr ⟨item, hmem, hrec⟩

/-- Witness for C6 on a batch holding one valid and one invalid item. -/
theorem transform_trivia_data_spec_witness :
    [recA].length ≤ [rawGood, rawBad].length ∧
    (∀ rec ∈ [recA], ∃ item ∈ [rawGood, rawBad], ∃ ia,
      item.incorrect_answers = some ia ∧
      rec.incorrect_answers = String.intercalate ", " ia) ∧
    (∀ item ∈ [rawGood, rawBad], ∀ rec, transformItem item = some rec →
      rec ∈ [recA]) :=
  transform_trivia_data_spec [rawGood, rawBad] [recA] (by decide)

/-- C8: in every reachable session state, every recorded answer key is
strictly below the current index; an in-progress Submit with a selection
advances the index by exactly one, no Submit ever moves it backwards, and a
new start resets it to zero. -/
theorem session_index_invariant (sh : Nat → List String → List String)
    (s : SessionState) (h : Reachable sh s) :
    (∀ p ∈ s.answers, p.1 < s.current_question) ∧
    (s.current_question < s.questions.length →
      ∀ a : String, (submit_answer (some a) s).current_question =
        s.current_question + 1) ∧
    (∀ a : Option String,
      s.current_question ≤ (submit_answer a s).current_question) ∧
    (∀ sample, (start_quiz sh sample s).current_question = 0) := by
  refine ⟨answers_keys_lt_aux sh s h, ?_,
    fun a => submit_answer_current_le a s, fun _ => rfl⟩
  intro hlt a
  obtain ⟨q, hq⟩ := exists_getElem?_of_lt _ _ hlt
  rw [submit_answer_some_eq s a q hq]

/-- Witness for C8 at the reachable initial state. -/
theorem session_index_invariant_witness :
    (∀ p ∈ initialState.answers, p.1 < initialState.current_question) ∧
    (initialState.current_question < initialState.questions.length →
      ∀ a : String, (submit_answer (some a) initialState).current_question =
        initialState.current_question + 1) ∧
    (∀ a : Option String, initialState.current_question ≤
      (submit_answer a initialState).current_question) ∧
    (∀ sample,
      (start_quiz idShuffle sample initialState).current_question = 0) :=
  session_index_invariant idShuffle initialState Reachable.init

/-- C10: in every reachable session state the score is at most the current
index; a start establishes the invariant with score and index both zero, and
an in-progress Submit preserves it. -/
theorem score_le_answered (sh : Nat → List String → List String)
    (s : SessionState) (h : Reachable sh s) :
    s.score ≤ s.current_question ∧
    (∀ sample, (start_quiz sh sample s).score = 0 ∧
      (start_quiz sh sample s).current_question = 0) ∧
    (∀ a : Option String, s.current_question < s.questions.length →
      (submit_answer a s).score ≤ (submit_answer a s).current_question) := by
  refine ⟨score_le_current_aux sh s h, fun _ => ⟨rfl, rfl⟩, ?_⟩
  intro a hlt
  exact submit_answer_score_step s a hlt (score_le_current_aux sh s h)

/-- Witness for C10 at the reachable initial state. -/
theorem score_le_answered_witness :
    initialState.score ≤ initialState.current_question ∧
    (∀ sample, (start_quiz idShuffle sample initialState).score = 0 ∧
      (start_quiz idShuffle sample initialState).current_question = 0) ∧
    (∀ a : Option String,
      initialState.current_question < initialState.questions.length →
      (submit_answer a initialState).score ≤
        (submit_answer a initialState).current_question) :=
  score_le_answered idShuffle initialState Reachable.init

end TriviaApp
